import Mathlib

/-!
Verification of the Home-Canvas geometry pipeline and composition
orchestrator (src/services/geminiService.ts, src/App.tsx, and the
ImageUploader component) against its natural-language specification.

Numbers are modelled as rationals: every arithmetic operation the source
performs (add, subtract, multiply, divide, compare) is exact on the
inputs the claims quantify over, so ℚ mirrors the JavaScript float
arithmetic at the precision the claims are stated at.  Where the source
divides by zero (JavaScript yields Infinity/NaN, ℚ yields 0) no theorem
below depends on the quotient's value, only on the fact that the source
raises no error there.
-/

namespace HomeCanvas

/-- The content rectangle of a letterboxed image inside the square
canvas: its size and its top-left offset.  The spec calls this record
`AspectGeometry`. -/
structure AspectGeometry where
  contentWidth : ℚ
  contentHeight : ℚ
  offsetX : ℚ
  offsetY : ℚ
deriving DecidableEq, Repr

/-- A pixel position on the square canvas. -/
structure Point where
  x : ℚ
  y : ℚ
deriving DecidableEq, Repr

/-- A content-relative position in percent, as supplied by the UI. -/
structure RelativePosition where
  xPercent : ℚ
  yPercent : ℚ
deriving DecidableEq, Repr

/-- The content-rectangle computation of `resizeImage`
(src/services/geminiService.ts lines 104–118): `aspectRatio = img.width
/ img.height`; the landscape branch (`aspectRatio > 1`) sets `newWidth =
targetDimension`, `newHeight = targetDimension / aspectRatio`, the other
branch sets `newHeight = targetDimension`, `newWidth = targetDimension *
aspectRatio`; then `x = (targetDimension - newWidth) / 2`, `y =
(targetDimension - newHeight) / 2`. -/
def resizeImageGeometry (imgWidth imgHeight targetDimension : ℚ) : AspectGeometry :=
  let aspect := imgWidth / imgHeight
  let newWidth := if aspect > 1 then targetDimension else targetDimension * aspect
  let newHeight := if aspect > 1 then targetDimension / aspect else targetDimension
  { contentWidth := newWidth, contentHeight := newHeight,
    offsetX := (targetDimension - newWidth) / 2,
    offsetY := (targetDimension - newHeight) / 2 }

/-- The content-rectangle computation of `markImage`
(src/services/geminiService.ts lines 198–213), textually the same
formula as in `resizeImage`, computed from the original scene dimensions
and `targetDimension = canvas.width`. -/
def markImageGeometry (originalWidth originalHeight targetDimension : ℚ) : AspectGeometry :=
  let aspect := originalWidth / originalHeight
  let contentWidth := if aspect > 1 then targetDimension else targetDimension * aspect
  let contentHeight := if aspect > 1 then targetDimension / aspect else targetDimension
  { contentWidth := contentWidth, contentHeight := contentHeight,
    offsetX := (targetDimension - contentWidth) / 2,
    offsetY := (targetDimension - contentHeight) / 2 }

/-- The content-rectangle computation of `cropToOriginalAspectRatio`
(src/services/geminiService.ts lines 41–53), again the same formula,
computed from the original (pre-pad) dimensions. -/
def cropGeometry (originalWidth originalHeight targetDimension : ℚ) : AspectGeometry :=
  let aspect := originalWidth / originalHeight
  let contentWidth := if aspect > 1 then targetDimension else targetDimension * aspect
  let contentHeight := if aspect > 1 then targetDimension / aspect else targetDimension
  { contentWidth := contentWidth, contentHeight := contentHeight,
    offsetX := (targetDimension - contentWidth) / 2,
    offsetY := (targetDimension - contentHeight) / 2 }

/-- The shared content-rectangle formula, replicated verbatim at the
three source sites above; the spec names it `computeAspectGeometry`. -/
def computeAspectGeometry (originalWidth originalHeight targetDimension : ℚ) : AspectGeometry :=
  let aspect := originalWidth / originalHeight
  let contentWidth := if aspect > 1 then targetDimension else targetDimension * aspect
  let contentHeight := if aspect > 1 then targetDimension / aspect else targetDimension
  { contentWidth := contentWidth, contentHeight := contentHeight,
    offsetX := (targetDimension - contentWidth) / 2,
    offsetY := (targetDimension - contentHeight) / 2 }

/-- The content-percentage-to-square-pixel mapping of `markImage`
(src/services/geminiService.ts lines 215–221): `markerXInContent =
(position.xPercent / 100) * contentWidth`, `finalMarkerX = offsetX +
markerXInContent`, and the same on the y axis. -/
def contentPercentToSquarePixel (position : RelativePosition) (geom : AspectGeometry) : Point :=
  { x := geom.offsetX + position.xPercent / 100 * geom.contentWidth,
    y := geom.offsetY + position.yPercent / 100 * geom.contentHeight }

/-- The placement mode of a product, from src/components/types.ts:
`applicationType: 'tile' | 'single'`.  The spec calls it
`PlacementMode`. -/
inductive PlacementMode where
  | tile
  | single
deriving DecidableEq, Repr

/-- The failure taxonomy used to state the claims.  The first four
constructors are the rejection reasons that actually occur in
src/services/geminiService.ts (file-read/image-load failure, a null
canvas context, a failed canvas-to-blob conversion, and the thrown
"The AI model did not return an image" error).  The last three are the
spec's §7 names `InvalidImageDimensions`, `InvalidPosition` and
`MalformedModelOutput`; they appear here so the claims about them can be
stated — no source path produces them, which several theorems below
record. -/
inductive GenError where
  | unreadableImage
  | canvasContextError
  | blobConversionError
  | noImageReturned
  | invalidImageDimensions
  | invalidPosition
  | malformedModelOutput
deriving DecidableEq, Repr

/-- The fixed fallback surface description substituted in the catch
branch of the description step (src/services/geminiService.ts line
323). -/
def fallbackDescription : String := "at the specified location on the most prominent surface."

/-- The fallback phrase as the spec quotes it (without the trailing
period). -/
def fallbackPhrase : String := "at the specified location on the most prominent surface"

/-- The description step of `generateCompositeImage`
(src/services/geminiService.ts lines 312–324): the description call is
wrapped in try/catch; a thrown error is replaced by
`fallbackDescription`, while any text the call returns — including the
empty string — is used as-is. -/
def describeStep (outcome : Except Unit String) : String :=
  match outcome with
  | Except.ok text => text
  | Except.error _ => fallbackDescription

/-- The composition prompt template (src/services/geminiService.ts lines
332–352) up to the tile-application clause. -/
def compositionPromptHead : String := "\n**Role:**\nYou are an expert interior design visualizer. Your task is to take a 'tile pattern' image and apply it as a texture to a surface within a 'scene' image, adjusting for perspective, lighting, and scale, while preserving existing objects.\n\n**Specifications:**\n-   **Tile Pattern to apply:**\n    The first image provided is the tile pattern. You should use this as a repeating texture. Ignore any black padding or background around the pattern.\n-   **Scene to use:**\n    The second image provided is the room scene. Ignore any black padding.\n-   **Placement Instruction (Crucial):**\n    -   You must identify the surface (e.g., floor, wall, countertop) based on the following description.\n    -   "

/-- The tile-application clause of the composition prompt: the only
placement clause the template has. -/
def tileClause : String := "Apply the tile pattern to this entire continuous surface, ensuring the pattern repeats seamlessly and naturally."

/-- The composition prompt template between the tile clause and the
interpolated surface description. -/
def compositionPromptMid : String := "\n    -   **Target Surface Description:** \""

/-- The composition prompt template after the interpolated surface
description. -/
def compositionPromptTail : String := "\"\n-   **Final Image Requirements:**\n    -   The output image's style, lighting, shadows, reflections, and camera perspective must exactly match the original scene.\n    -   The tile texture must be applied with correct perspective, distortion, and scale, making it look photorealistic on the identified surface.\n    -   **Crucially, you MUST preserve any existing objects in the scene that are on or in front of the surface you are texturing.** For example, if you are tiling a floor, any furniture, rugs, or items on the floor must remain untouched on top of the new tiles. If you are tiling a wall, any pictures, shelves, or furniture against the wall must remain. Do not remove or alter existing objects.\n    -   The final image should be a photorealistic rendering of the scene with the new tiles.\n\nThe output should ONLY be the final, composed image. Do not add any text or explanation.\n"

/-- The composition prompt of `generateCompositeImage`: a fixed template
with the semantic location description interpolated at exactly one
place (src/services/geminiService.ts lines 332–352). -/
def compositionPrompt (semanticLocationDescription : String) : String :=
  compositionPromptHead ++ tileClause ++ compositionPromptMid
    ++ semanticLocationDescription ++ compositionPromptTail

/-- The composition prompt as a function of the placement mode the
caller supplies.  App.tsx (lines 132–139) passes
`selectedProduct.applicationType` as a sixth argument, but
`generateCompositeImage` declares only five parameters
(src/services/geminiService.ts lines 264–270), so the mode never reaches
the prompt construction: the prompt depends only on the surface
description. -/
def promptForMode (mode : PlacementMode) (semanticLocationDescription : String) : String :=
  compositionPrompt semanticLocationDescription

/-- `s` contains `pattern` as a substring. -/
def containsStr (s pattern : String) : Prop :=
  ∃ pre post, s = pre ++ pattern ++ post

/-- The symbolic result of `resizeImage` (src/services/geminiService.ts
lines 79–138): the canvas is `targetDimension × targetDimension`, filled
with black over its whole extent, the source image is drawn into the
rectangle `drawRect`, and the canvas is exported as JPEG at quality
0.95 whatever the source file's type was. -/
structure RectQ where
  x : ℚ
  y : ℚ
  w : ℚ
  h : ℚ
deriving DecidableEq, Repr

/-- The single fill color the source uses (`ctx.fillStyle = 'black'`). -/
inductive FillStyle where
  | black
deriving DecidableEq, Repr

/-- The observable output of the pad step. -/
structure PaddedImage where
  width : ℚ
  height : ℚ
  fillStyle : FillStyle
  fillRect : RectQ
  drawRect : RectQ
  mimeType : String
  quality : ℚ
deriving DecidableEq, Repr

/-- `resizeImage` (src/services/geminiService.ts lines 79–138) as a
function of the loaded source image's dimensions: `canvas.width =
canvas.height = targetDimension`; `fillRect(0, 0, targetDimension,
targetDimension)` with black; the geometry block of lines 104–118
(transcribed above as `resizeImageGeometry`); `drawImage(img, x, y,
newWidth, newHeight)`; `toBlob(..., 'image/jpeg', 0.95)` with the file
type forced to 'image/jpeg'. -/
def resizeImage (imgWidth imgHeight targetDimension : ℚ) : PaddedImage :=
  let g := resizeImageGeometry imgWidth imgHeight targetDimension
  { width := targetDimension, height := targetDimension,
    fillStyle := FillStyle.black,
    fillRect := ⟨0, 0, targetDimension, targetDimension⟩,
    drawRect := ⟨g.offsetX, g.offsetY, g.contentWidth, g.contentHeight⟩,
    mimeType := "image/jpeg", quality := 95 / 100 }

/-- The observable output of the marker-annotation step. -/
structure MarkedImage where
  width : ℚ
  height : ℚ
  marker : Point
  markerRadius : ℚ
  mimeType : String
  quality : ℚ
deriving DecidableEq, Repr

/-- `markImage` (src/services/geminiService.ts lines 170–250) as a
function of the loaded padded image's dimensions, the content-relative
position and the original scene dimensions: `canvas.width = img.width`,
`canvas.height = img.height`, `targetDimension = canvas.width`; the
geometry block of lines 198–213 (transcribed as `markImageGeometry`);
the marker pixel from lines 215–221 (transcribed as
`contentPercentToSquarePixel`); `markerRadius = Math.max(5,
Math.min(canvas.width, canvas.height) * 0.015)`; output encoded as JPEG
at quality 0.95.  The position percentages are used unvalidated. -/
def markImage (paddedWidth paddedHeight : ℚ) (position : RelativePosition)
    (originalWidth originalHeight : ℚ) : MarkedImage :=
  let targetDimension := paddedWidth
  let g := markImageGeometry originalWidth originalHeight targetDimension
  { width := paddedWidth, height := paddedHeight,
    marker := contentPercentToSquarePixel position g,
    markerRadius := max 5 (min paddedWidth paddedHeight * (15 / 1000)),
    mimeType := "image/jpeg", quality := 95 / 100 }

/-- `markImage` with its rejection paths (src/services/geminiService.ts:
reader/image failures, a null canvas context, a failed toBlob), each
independent of the position and of the dimensions: the source has no
validation step, so once the three I/O points succeed the promise always
resolves with the marked image. -/
def markImageRun (loadOk ctxOk blobOk : Bool) (paddedWidth paddedHeight : ℚ)
    (position : RelativePosition) (originalWidth originalHeight : ℚ) :
    Except GenError MarkedImage :=
  if loadOk = false then Except.error GenError.unreadableImage
  else if ctxOk = false then Except.error GenError.canvasContextError
  else if blobOk = false then Except.error GenError.blobConversionError
  else Except.ok (markImage paddedWidth paddedHeight position originalWidth originalHeight)

/-- The observable output of the crop-back step. -/
structure CroppedImage where
  width : ℚ
  height : ℚ
  srcRect : RectQ
  mimeType : String
  quality : ℚ
deriving DecidableEq, Repr

/-- `cropToOriginalAspectRatio` (src/services/geminiService.ts lines
30–73) as a function of the original dimensions and the target: the
geometry block of lines 41–53 (transcribed as `cropGeometry`), a canvas
of `contentWidth × contentHeight`, `drawImage(img, x, y, contentWidth,
contentHeight, 0, 0, contentWidth, contentHeight)`, exported via
`toDataURL('image/jpeg', 0.95)`.  The square image itself is only the
pixel source of `drawImage`: its actual dimensions are never read or
checked. -/
def cropToOriginalAspectRatio (originalWidth originalHeight targetDimension : ℚ) :
    CroppedImage :=
  let g := cropGeometry originalWidth originalHeight targetDimension
  { width := g.contentWidth, height := g.contentHeight,
    srcRect := ⟨g.offsetX, g.offsetY, g.contentWidth, g.contentHeight⟩,
    mimeType := "image/jpeg", quality := 95 / 100 }

/-- `cropToOriginalAspectRatio` with its rejection paths (image load
failure, null canvas context).  `imageWidth` and `imageHeight` are the
square image's actual dimensions; the body never consults them — the
source contains no size check. -/
def cropToOriginalAspectRatioRun (loadOk ctxOk : Bool) (imageWidth imageHeight : ℚ)
    (originalWidth originalHeight targetDimension : ℚ) : Except GenError CroppedImage :=
  if loadOk = false then Except.error GenError.unreadableImage
  else if ctxOk = false then Except.error GenError.canvasContextError
  else Except.ok (cropToOriginalAspectRatio originalWidth originalHeight targetDimension)

/-- An inline-data payload of a model response part. -/
structure InlineData where
  mimeType : String
  data : String
deriving DecidableEq, Repr

/-- A part of the composition model's response. -/
structure ResponsePart where
  text : Option String
  inlineData : Option InlineData
deriving DecidableEq, Repr

/-- The composition model's response: the parts of its first candidate,
`none` when the optional chain
`candidates?.[0]?.content?.parts` is absent. -/
structure GenResponse where
  parts : Option (List ResponsePart)
deriving DecidableEq, Repr

/-- `response.candidates?.[0]?.content?.parts?.find(part =>
part.inlineData)` (src/services/geminiService.ts line 365). -/
def extractImagePart (response : GenResponse) : Option ResponsePart :=
  match response.parts with
  | none => none
  | some ps => ps.find? (fun p => p.inlineData.isSome)

/-- The result of a successful `generateCompositeImage` run:
`{ finalImageUrl, debugImageUrl, finalPrompt }`. -/
structure CompositionOutput where
  finalImage : CroppedImage
  debugImage : MarkedImage
  finalPrompt : String
deriving DecidableEq, Repr

/-- The fixed square dimension for model inputs
(src/services/geminiService.ts line 278). -/
def MAX_DIMENSION : ℚ := 1024

/-- The pipeline of `generateCompositeImage`
(src/services/geminiService.ts lines 264–385) over the outcomes of the
two external model calls, with the image transforms as the pure
functions above: resize the scene to the 1024-square, mark it at the
drop position (the marked image is the debug artifact), run the
description step (`describeStep`), build the prompt, make exactly one
composition call — `laterResponses` models what further calls would
return and is never consulted, the source retries nothing — and either
crop the returned square back to the original aspect ratio or throw
"The AI model did not return an image" when the response has no
image-bearing part. -/
def generateCompositeImageRun (originalWidth originalHeight : ℚ)
    (dropPosition : RelativePosition) (descOutcome : Except Unit String)
    (response : GenResponse) (laterResponses : List GenResponse) :
    Except GenError CompositionOutput :=
  let resizedEnvironmentImage := resizeImage originalWidth originalHeight MAX_DIMENSION
  let markedEnvironmentImage :=
    markImage resizedEnvironmentImage.width resizedEnvironmentImage.height
      dropPosition originalWidth originalHeight
  let semanticLocationDescription := describeStep descOutcome
  let prompt := compositionPrompt semanticLocationDescription
  match extractImagePart response with
  | some _ =>
      Except.ok
        { finalImage := cropToOriginalAspectRatio originalWidth originalHeight MAX_DIMENSION,
          debugImage := markedEnvironmentImage,
          finalPrompt := prompt }
  | none => Except.error GenError.noImageReturned

/-- The position event `handlePlacement` hands to `onSurfaceClick`: the
container-relative point and the content-relative percentages. -/
structure PlacementEvent where
  point : Point
  relativePosition : RelativePosition
deriving DecidableEq, Repr

/-- The object-contain rendered size of the image inside its container
(ImageUploader, src/unnamed/part_000 lines 69–79): if the image's aspect
exceeds the container's, the rendered width is the container width and
the height follows from the image aspect; otherwise the rendered height
is the container height and the width follows. -/
def renderedSize (containerWidth containerHeight naturalWidth naturalHeight : ℚ) : ℚ × ℚ :=
  let imageAspect := naturalWidth / naturalHeight
  let containerAspect := containerWidth / containerHeight
  if imageAspect > containerAspect then
    (containerWidth, containerWidth / imageAspect)
  else
    (containerHeight * imageAspect, containerHeight)

/-- `handlePlacement` of ImageUploader (src/unnamed/part_000 lines
61–99): compute the object-contain rendered rectangle and its centering
offsets, translate the client point into image coordinates, discard the
click (returning without invoking `onSurfaceClick`, modelled as `none`)
when the point lies outside the rendered rectangle, and otherwise emit
the point and the percentages `imageX / renderedWidth * 100`,
`imageY / renderedHeight * 100`. -/
def handlePlacement (clientX clientY containerLeft containerTop
    containerWidth containerHeight naturalWidth naturalHeight : ℚ) :
    Option PlacementEvent :=
  let rendered := renderedSize containerWidth containerHeight naturalWidth naturalHeight
  let renderedWidth := rendered.1
  let renderedHeight := rendered.2
  let offsetX := (containerWidth - renderedWidth) / 2
  let offsetY := (containerHeight - renderedHeight) / 2
  let pointX := clientX - containerLeft
  let pointY := clientY - containerTop
  let imageX := pointX - offsetX
  let imageY := pointY - offsetY
  if imageX < 0 ∨ imageX > renderedWidth ∨ imageY < 0 ∨ imageY > renderedHeight then
    none
  else
    some { point := ⟨pointX, pointY⟩,
           relativePosition := ⟨imageX / renderedWidth * 100, imageY / renderedHeight * 100⟩ }

end HomeCanvas

namespace HomeCanvas

/-- C1: for all originalWidth w > 0, originalHeight h > 0 and
targetDimension t, `computeAspectGeometry` — the formula replicated in
`resizeImage`, `markImage` and `cropToOriginalAspectRatio` — returns
contentWidth = t and contentHeight = t / (w/h) when w/h > 1, otherwise
contentHeight = t and contentWidth = t * (w/h), with offsetX =
(t - contentWidth)/2 and offsetY = (t - contentHeight)/2;
`contentPercentToSquarePixel` maps a percentage position to offset +
(percent/100) * content extent; and for (1600, 900, 1024) the geometry is
(1024, 576, 0, 224) with {50, 50} mapping to pixel {512, 512}. -/
theorem computeAspectGeometry_formula_and_example :
    (∀ w h t : ℚ, 0 < w → 0 < h →
      (w / h > 1 →
        (computeAspectGeometry w h t).contentWidth = t ∧
        (computeAspectGeometry w h t).contentHeight = t / (w / h)) ∧
      (¬ w / h > 1 →
        (computeAspectGeometry w h t).contentHeight = t ∧
        (computeAspectGeometry w h t).contentWidth = t * (w / h)) ∧
      (computeAspectGeometry w h t).offsetX
        = (t - (computeAspectGeometry w h t).contentWidth) / 2 ∧
      (computeAspectGeometry w h t).offsetY
        = (t - (computeAspectGeometry w h t).contentHeight) / 2) ∧
    (∀ w h t : ℚ, resizeImageGeometry w h t = computeAspectGeometry w h t ∧
      markImageGeometry w h t = computeAspectGeometry w h t ∧
      cropGeometry w h t = computeAspectGeometry w h t) ∧
    (∀ (p : RelativePosition) (g : AspectGeometry),
      contentPercentToSquarePixel p g
        = ⟨g.offsetX + p.xPercent / 100 * g.contentWidth,
           g.offsetY + p.yPercent / 100 * g.contentHeight⟩) ∧
    computeAspectGeometry 1600 900 1024 = ⟨1024, 576, 0, 224⟩ ∧
    contentPercentToSquarePixel ⟨50, 50⟩ (computeAspectGeometry 1600 900 1024)
      = ⟨512, 512⟩ := by
  have hland : (1600 : ℚ) / 900 > 1 := by norm_num
  refine ⟨fun w h t hw hh => ?_, fun w h t => ⟨rfl, rfl, rfl⟩,
    fun p g => rfl, ?_, ?_⟩
  · by_cases hr : w / h > 1 <;>
      simp [computeAspectGeometry, hr]
  · simp [computeAspectGeometry, hland]
    norm_num
  · simp [contentPercentToSquarePixel, computeAspectGeometry, hland]
    norm_num

/-- C1 witness: the formula instantiated at the spec's concrete scenario
(1600, 900, 1024). -/
theorem computeAspectGeometry_formula_and_example_witness :
    ((1600 : ℚ) / 900 > 1 →
      (computeAspectGeometry 1600 900 1024).contentWidth = 1024 ∧
      (computeAspectGeometry 1600 900 1024).contentHeight = 1024 / ((1600 : ℚ) / 900)) ∧
    (¬ (1600 : ℚ) / 900 > 1 →
      (computeAspectGeometry 1600 900 1024).contentHeight = 1024 ∧
      (computeAspectGeometry 1600 900 1024).contentWidth = 1024 * ((1600 : ℚ) / 900)) ∧
    (computeAspectGeometry 1600 900 1024).offsetX
      = (1024 - (computeAspectGeometry 1600 900 1024).contentWidth) / 2 ∧
    (computeAspectGeometry 1600 900 1024).offsetY
      = (1024 - (computeAspectGeometry 1600 900 1024).contentHeight) / 2 :=
  computeAspectGeometry_formula_and_example.1 1600 900 1024 (by norm_num) (by norm_num)

/-- C5 counterexample: for the square input (1, 1) with target 1024 the
code sets both contentWidth and contentHeight to the target, so "exactly
one of contentWidth == targetDimension or contentHeight ==
targetDimension holds" is false on a square image. -/
theorem computeAspectGeometry_square_not_exactly_one :
    (computeAspectGeometry 1 1 1024).contentWidth = 1024 ∧
    (computeAspectGeometry 1 1 1024).contentHeight = 1024 ∧
    ¬ (((computeAspectGeometry 1 1 1024).contentWidth = 1024 ∧
        ¬ (computeAspectGeometry 1 1 1024).contentHeight = 1024) ∨
       (¬ (computeAspectGeometry 1 1 1024).contentWidth = 1024 ∧
        (computeAspectGeometry 1 1 1024).contentHeight = 1024)) := by
  have hsq : ¬ ((1 : ℚ) / 1 > 1) := by norm_num
  have hcw : (computeAspectGeometry 1 1 1024).contentWidth = 1024 := by
    simp [computeAspectGeometry, hsq]
  have hch : (computeAspectGeometry 1 1 1024).contentHeight = 1024 := by
    simp [computeAspectGeometry, hsq]
  refine ⟨hcw, hch, ?_⟩
  rintro (⟨-, h⟩ | ⟨h, -⟩) <;> exact h (by simp [hcw, hch])

/-- C5 (amended): for all w, h > 0 and target t > 0 the geometry
satisfies offsetX, offsetY ∈ [0, t]; at least one of contentWidth = t or
contentHeight = t, with both holding exactly when w = h; and the content
is centered with equal padding before and after it on each axis. -/
theorem computeAspectGeometry_invariants (w h t : ℚ) (hw : 0 < w) (hh : 0 < h)
    (ht : 0 < t) :
    (0 ≤ (computeAspectGeometry w h t).offsetX ∧
     (computeAspectGeometry w h t).offsetX ≤ t ∧
     0 ≤ (computeAspectGeometry w h t).offsetY ∧
     (computeAspectGeometry w h t).offsetY ≤ t) ∧
    ((computeAspectGeometry w h t).contentWidth = t ∨
     (computeAspectGeometry w h t).contentHeight = t) ∧
    (((computeAspectGeometry w h t).contentWidth = t ∧
      (computeAspectGeometry w h t).contentHeight = t) ↔ w = h) ∧
    (t - ((computeAspectGeometry w h t).offsetX
          + (computeAspectGeometry w h t).contentWidth)
       = (computeAspectGeometry w h t).offsetX ∧
     t - ((computeAspectGeometry w h t).offsetY
          + (computeAspectGeometry w h t).contentHeight)
       = (computeAspectGeometry w h t).offsetY) := by
  have hr : 0 < w / h := div_pos hw hh
  have hh0 : h ≠ 0 := ne_of_gt hh
  have ht0 : t ≠ 0 := ne_of_gt ht
  by_cases hcase : w / h > 1
  · have hrle : 1 ≤ w / h := le_of_lt hcase
    have hdivpos : 0 < t / (w / h) := div_pos ht hr
    have hdivle : t / (w / h) ≤ t := div_le_self (le_of_lt ht) hrle
    refine ⟨?_, Or.inl ?_, ?_, ?_⟩
    · simp only [computeAspectGeometry, hcase, if_pos]
      constructor
      · simp
      refine ⟨by linarith, by linarith, by linarith⟩
    · simp [computeAspectGeometry, hcase]
    · simp only [computeAspectGeometry, hcase, if_pos]
      constructor
      · rintro ⟨-, hch⟩
        exfalso
        rw [div_eq_iff (ne_of_gt hr)] at hch
        have : w / h = 1 := by
          have := mul_left_cancel₀ ht0 (by linarith [hch] : t * (w / h) = t * 1)
          linarith
        linarith
      · intro hwh
        exfalso
        rw [hwh, div_self hh0] at hcase
        exact lt_irrefl 1 hcase
    · simp only [computeAspectGeometry, hcase, if_pos]
      constructor <;> ring
  · have hrle : w / h ≤ 1 := not_lt.mp hcase
    have hmulpos : 0 < t * (w / h) := mul_pos ht hr
    have hmulle : t * (w / h) ≤ t := by
      calc t * (w / h) ≤ t * 1 := by
            exact mul_le_mul_of_nonneg_left hrle (le_of_lt ht)
        _ = t := mul_one t
    refine ⟨?_, Or.inr ?_, ?_, ?_⟩
    · simp only [computeAspectGeometry, hcase, if_neg, not_false_iff]
      refine ⟨by linarith, by linarith, by linarith, by linarith⟩
    · simp [computeAspectGeometry, hcase]
    · simp only [computeAspectGeometry, hcase, if_neg, not_false_iff]
      constructor
      · rintro ⟨hcw, -⟩
        have : w / h = 1 := by
          have := mul_left_cancel₀ ht0 (by linarith [hcw] : t * (w / h) = t * 1)
          linarith
        field_simp at this
        linarith
      · intro hwh
        rw [hwh, div_self hh0]
        simp
    · simp only [computeAspectGeometry, hcase, if_neg, not_false_iff]
      constructor <;> ring

/-- C5 witness: the invariants instantiated at the spec's landscape
scenario (1600, 900, 1024). -/
theorem computeAspectGeometry_invariants_witness :
    (0 ≤ (computeAspectGeometry 1600 900 1024).offsetX ∧
     (computeAspectGeometry 1600 900 1024).offsetX ≤ 1024 ∧
     0 ≤ (computeAspectGeometry 1600 900 1024).offsetY ∧
     (computeAspectGeometry 1600 900 1024).offsetY ≤ 1024) ∧
    ((computeAspectGeometry 1600 900 1024).contentWidth = 1024 ∨
     (computeAspectGeometry 1600 900 1024).contentHeight = 1024) ∧
    (((computeAspectGeometry 1600 900 1024).contentWidth = 1024 ∧
      (computeAspectGeometry 1600 900 1024).contentHeight = 1024) ↔ (1600 : ℚ) = 900) ∧
    (1024 - ((computeAspectGeometry 1600 900 1024).offsetX
          + (computeAspectGeometry 1600 900 1024).contentWidth)
       = (computeAspectGeometry 1600 900 1024).offsetX ∧
     1024 - ((computeAspectGeometry 1600 900 1024).offsetY
          + (computeAspectGeometry 1600 900 1024).contentHeight)
       = (computeAspectGeometry 1600 900 1024).offsetY) :=
  computeAspectGeometry_invariants 1600 900 1024 (by norm_num) (by norm_num) (by norm_num)

/-- The source's fallback string is the spec's fallback phrase followed
by a period. -/
theorem fallbackDescription_eq : fallbackDescription = fallbackPhrase ++ "." := by decide

/-- Every composition prompt contains the tile-application clause. -/
theorem compositionPrompt_contains_tileClause (d : String) :
    containsStr (compositionPrompt d) tileClause :=
  ⟨compositionPromptHead, compositionPromptMid ++ d ++ compositionPromptTail, by
    simp [compositionPrompt, String.append_assoc]⟩

/-- The composition prompt built from the fallback description contains
the fallback phrase. -/
theorem compositionPrompt_fallback_contains_phrase :
    containsStr (compositionPrompt fallbackDescription) fallbackPhrase :=
  ⟨compositionPromptHead ++ tileClause ++ compositionPromptMid,
   "." ++ compositionPromptTail, by
    rw [fallbackDescription_eq]
    simp [compositionPrompt, String.append_assoc]⟩

/-- C2 counterexample: a description call that succeeds with empty text
is NOT replaced by the fallback — the catch branch only fires on a
thrown error, so `describeStep` hands the empty string on unchanged,
contradicting the claim that the fallback is substituted whenever the
call "returns empty or unusable text". -/
theorem describeStep_empty_not_replaced :
    describeStep (Except.ok "") = "" ∧ describeStep (Except.ok "") ≠ fallbackDescription := by
  refine ⟨rfl, ?_⟩
  intro hcontra
  exact absurd hcontra (by decide)

/-- C2 (amended): when the description call THROWS, the fallback
description is substituted, the pipeline runs to completion exactly as
if the call had returned the fallback text (no error from the
description step ever reaches the caller), and the returned prompt
contains the fallback phrase.  (A successful call returning empty text
is used as-is — see the counterexample.) -/
theorem generateCompositeImage_description_fallback
    (ow oh : ℚ) (drop : RelativePosition) (response : GenResponse)
    (laterResponses : List GenResponse)
    (himg : extractImagePart response ≠ none) :
    describeStep (Except.error ()) = fallbackDescription ∧
    generateCompositeImageRun ow oh drop (Except.error ()) response laterResponses
      = generateCompositeImageRun ow oh drop (Except.ok fallbackDescription)
          response laterResponses ∧
    ∃ out, generateCompositeImageRun ow oh drop (Except.error ()) response laterResponses
        = Except.ok out ∧
      out.finalPrompt = compositionPrompt fallbackDescription ∧
      containsStr out.finalPrompt fallbackPhrase := by
  refine ⟨rfl, rfl, ?_⟩
  cases hfind : extractImagePart response with
  | none => exact absurd hfind himg
  | some p =>
      refine ⟨{ finalImage := cropToOriginalAspectRatio ow oh MAX_DIMENSION,
                debugImage := markImage (resizeImage ow oh MAX_DIMENSION).width
                  (resizeImage ow oh MAX_DIMENSION).height drop ow oh,
                finalPrompt := compositionPrompt fallbackDescription }, ?_, rfl,
        compositionPrompt_fallback_contains_phrase⟩
      simp [generateCompositeImageRun, hfind]
      rfl

/-- C2 witness: the fallback path evaluated with a response that carries
an image part. -/
theorem generateCompositeImage_description_fallback_witness :
    describeStep (Except.error ()) = fallbackDescription ∧
    generateCompositeImageRun 1600 900 ⟨50, 50⟩ (Except.error ())
        ⟨some [⟨none, some ⟨"image/png", "data"⟩⟩]⟩ []
      = generateCompositeImageRun 1600 900 ⟨50, 50⟩ (Except.ok fallbackDescription)
          ⟨some [⟨none, some ⟨"image/png", "data"⟩⟩]⟩ [] ∧
    ∃ out, generateCompositeImageRun 1600 900 ⟨50, 50⟩ (Except.error ())
          ⟨some [⟨none, some ⟨"image/png", "data"⟩⟩]⟩ []
        = Except.ok out ∧
      out.finalPrompt = compositionPrompt fallbackDescription ∧
      containsStr out.finalPrompt fallbackPhrase :=
  generateCompositeImage_description_fallback 1600 900 ⟨50, 50⟩
    ⟨some [⟨none, some ⟨"image/png", "data"⟩⟩]⟩ [] (by simp [extractImagePart])

/-- C3: a composition response with no image-bearing part makes the run
fail with the `NoImageReturned` error (the thrown "The AI model did not
return an image"), producing no `CompositionOutput`; and the run never
consults any response beyond the first — there is no automatic retry. -/
theorem generateCompositeImage_no_image_fatal
    (ow oh : ℚ) (drop : RelativePosition) (descOutcome : Except Unit String)
    (response : GenResponse) (laterResponses : List GenResponse)
    (hno : extractImagePart response = none) :
    generateCompositeImageRun ow oh drop descOutcome response laterResponses
      = Except.error GenError.noImageReturned ∧
    (∀ other : List GenResponse,
      generateCompositeImageRun ow oh drop descOutcome response other
        = generateCompositeImageRun ow oh drop descOutcome response laterResponses) := by
  constructor
  · simp [generateCompositeImageRun, hno]
  · intro other
    rfl

/-- C3 witness: a text-only response evaluated through the pipeline. -/
theorem generateCompositeImage_no_image_fatal_witness :
    generateCompositeImageRun 1600 900 ⟨50, 50⟩ (Except.ok "on the floor")
        ⟨some [⟨some "cannot comply", none⟩]⟩ []
      = Except.error GenError.noImageReturned ∧
    (∀ other : List GenResponse,
      generateCompositeImageRun 1600 900 ⟨50, 50⟩ (Except.ok "on the floor")
          ⟨some [⟨some "cannot comply", none⟩]⟩ other
        = generateCompositeImageRun 1600 900 ⟨50, 50⟩ (Except.ok "on the floor")
            ⟨some [⟨some "cannot comply", none⟩]⟩ []) :=
  generateCompositeImage_no_image_fatal 1600 900 ⟨50, 50⟩ (Except.ok "on the floor")
    ⟨some [⟨some "cannot comply", none⟩]⟩ [] (by simp [extractImagePart])

/-- C4 (code bug): the placement mode the caller supplies never reaches
the prompt — `generateCompositeImage` declares no mode parameter, so the
sixth argument App.tsx passes is dropped and the prompt is the fixed
tile-texture instruction for both `Tile` and `Single`; in particular the
`Single` prompt also contains the repeating-texture clause, and no
`Single`-specific clause exists. -/
theorem promptForMode_ignores_mode :
    ∀ (mode : PlacementMode) (d : String),
      promptForMode mode d = compositionPrompt d ∧
      promptForMode PlacementMode.single d = promptForMode PlacementMode.tile d ∧
      containsStr (promptForMode mode d) tileClause :=
  fun mode d => ⟨rfl, rfl, compositionPrompt_contains_tileClause d⟩

/-- C6: the pad step produces a canvas of exactly targetDimension ×
targetDimension, pre-filled with opaque black over its whole extent,
exported as JPEG at the fixed quality 0.95 regardless of source format,
with the source drawn at the centered content rectangle under the same
scale factor on both axes. -/
theorem resizeImage_output_spec (w h t : ℚ) (hw : 0 < w) (hh : 0 < h) :
    (resizeImage w h t).width = t ∧
    (resizeImage w h t).height = t ∧
    (resizeImage w h t).mimeType = "image/jpeg" ∧
    (resizeImage w h t).quality = 95 / 100 ∧
    (resizeImage w h t).fillStyle = FillStyle.black ∧
    (resizeImage w h t).fillRect = ⟨0, 0, t, t⟩ ∧
    (resizeImage w h t).drawRect
      = ⟨(computeAspectGeometry w h t).offsetX, (computeAspectGeometry w h t).offsetY,
         (computeAspectGeometry w h t).contentWidth,
         (computeAspectGeometry w h t).contentHeight⟩ ∧
    (resizeImage w h t).drawRect.w / w = (resizeImage w h t).drawRect.h / h := by
  refine ⟨rfl, rfl, rfl, rfl, rfl, rfl, rfl, ?_⟩
  have hw0 : w ≠ 0 := ne_of_gt hw
  have hh0 : h ≠ 0 := ne_of_gt hh
  by_cases hr : w / h > 1 <;>
    simp [resizeImage, resizeImageGeometry, hr] <;>
    field_simp <;>
    ring

/-- C6 witness: the pad step evaluated at the 1600 × 900 scene and
target 1024. -/
theorem resizeImage_output_spec_witness :
    (resizeImage 1600 900 1024).width = 1024 ∧
    (resizeImage 1600 900 1024).height = 1024 ∧
    (resizeImage 1600 900 1024).mimeType = "image/jpeg" ∧
    (resizeImage 1600 900 1024).quality = 95 / 100 ∧
    (resizeImage 1600 900 1024).fillStyle = FillStyle.black ∧
    (resizeImage 1600 900 1024).fillRect = ⟨0, 0, 1024, 1024⟩ ∧
    (resizeImage 1600 900 1024).drawRect
      = ⟨(computeAspectGeometry 1600 900 1024).offsetX,
         (computeAspectGeometry 1600 900 1024).offsetY,
         (computeAspectGeometry 1600 900 1024).contentWidth,
         (computeAspectGeometry 1600 900 1024).contentHeight⟩ ∧
    (resizeImage 1600 900 1024).drawRect.w / 1600
      = (resizeImage 1600 900 1024).drawRect.h / 900 :=
  resizeImage_output_spec 1600 900 1024 (by norm_num) (by norm_num)

/-- C7 counterexample: a 512 × 512 square image — smaller than the
1024 target in both axes — is cropped without any failure: the source
contains no size check, so no `MalformedModelOutput` error is raised. -/
theorem cropRun_small_image_succeeds :
    (cropToOriginalAspectRatioRun true true 512 512 1600 900 1024).isOk = true ∧
    cropToOriginalAspectRatioRun true true 512 512 1600 900 1024
      ≠ Except.error GenError.malformedModelOutput := by
  constructor
  · rfl
  · simp [cropToOriginalAspectRatioRun]

/-- C7 (amended): the crop-back step performs no size validation — the
square image's actual dimensions are never consulted, the step succeeds
for every actual size once the image loads and a canvas context exists,
and no failure path produces `MalformedModelOutput`. -/
theorem cropToOriginalAspectRatio_no_size_validation :
    ∀ (loadOk ctxOk : Bool) (imageWidth imageHeight imageWidth2 imageHeight2 ow oh t : ℚ),
      cropToOriginalAspectRatioRun true true imageWidth imageHeight ow oh t
        = Except.ok (cropToOriginalAspectRatio ow oh t) ∧
      cropToOriginalAspectRatioRun loadOk ctxOk imageWidth imageHeight ow oh t
        ≠ Except.error GenError.malformedModelOutput ∧
      cropToOriginalAspectRatioRun loadOk ctxOk imageWidth imageHeight ow oh t
        = cropToOriginalAspectRatioRun loadOk ctxOk imageWidth2 imageHeight2 ow oh t := by
  intro loadOk ctxOk iw ih iw2 ih2 ow oh t
  refine ⟨rfl, ?_, rfl⟩
  cases loadOk <;> cases ctxOk <;> simp [cropToOriginalAspectRatioRun]

/-- C8 counterexample: the out-of-range position {150, 50} is accepted —
`markImage` validates nothing, so the marking succeeds and no
`InvalidPosition` error is raised. -/
theorem markImageRun_out_of_range_succeeds :
    (markImageRun true true true 1024 1024 ⟨150, 50⟩ 1600 900).isOk = true ∧
    markImageRun true true true 1024 1024 ⟨150, 50⟩ 1600 900
      ≠ Except.error GenError.invalidPosition := by
  constructor
  · rfl
  · simp [markImageRun]

/-- C8 (amended): the marking step accepts every position, in range or
not, mapping the percentages linearly; its only failure modes are the
position-independent I/O rejections, and no path produces
`InvalidPosition`. -/
theorem markImage_accepts_all_positions :
    ∀ (position : RelativePosition) (pw ph ow oh : ℚ) (loadOk ctxOk blobOk : Bool),
      markImageRun true true true pw ph position ow oh
        = Except.ok (markImage pw ph position ow oh) ∧
      markImageRun loadOk ctxOk blobOk pw ph position ow oh
        ≠ Except.error GenError.invalidPosition := by
  intro position pw ph ow oh loadOk ctxOk blobOk
  refine ⟨rfl, ?_⟩
  cases loadOk <;> cases ctxOk <;> cases blobOk <;> simp [markImageRun]

/-- C9 counterexample: with originalHeight = 0 both the crop-back and
the marking geometry run without any failure — the division
`originalWidth / originalHeight` is unguarded and no
`InvalidImageDimensions` error is raised. -/
theorem geometry_zero_height_no_failure :
    cropToOriginalAspectRatioRun true true 1024 1024 1600 0 1024
      ≠ Except.error GenError.invalidImageDimensions ∧
    markImageRun true true true 1024 1024 ⟨50, 50⟩ 1600 0
      ≠ Except.error GenError.invalidImageDimensions := by
  constructor <;> simp [cropToOriginalAspectRatioRun, markImageRun]

/-- C9 (amended): for originalWidth = 0 or originalHeight = 0 the
geometry consumers do NOT fail: the division by `originalHeight` has no
guard, the computation proceeds silently and the steps still resolve
successfully. -/
theorem geometry_zero_dims_silently_computes
    (imageWidth imageHeight w h t pw ph : ℚ) (position : RelativePosition)
    (hzero : w = 0 ∨ h = 0) :
    (cropToOriginalAspectRatioRun true true imageWidth imageHeight w h t).isOk = true ∧
    (markImageRun true true true pw ph position w h).isOk = true ∧
    cropToOriginalAspectRatioRun true true imageWidth imageHeight w h t
      = Except.ok (cropToOriginalAspectRatio w h t) ∧
    markImageRun true true true pw ph position w h
      = Except.ok (markImage pw ph position w h) :=
  ⟨rfl, rfl, rfl, rfl⟩

/-- C9 witness: the zero-height scene evaluated through both geometry
consumers. -/
theorem geometry_zero_dims_silently_computes_witness :
    (cropToOriginalAspectRatioRun true true 1024 1024 1600 0 1024).isOk = true ∧
    (markImageRun true true true 1024 1024 ⟨50, 50⟩ 1600 0).isOk = true ∧
    cropToOriginalAspectRatioRun true true 1024 1024 1600 0 1024
      = Except.ok (cropToOriginalAspectRatio 1600 0 1024) ∧
    markImageRun true true true 1024 1024 ⟨50, 50⟩ 1600 0
      = Except.ok (markImage 1024 1024 ⟨50, 50⟩ 1600 0) :=
  geometry_zero_dims_silently_computes 1024 1024 1600 0 1024 1024 1024 ⟨50, 50⟩ (Or.inr rfl)

/-- The object-contain rendered rectangle is positive in both axes when
the image and container dimensions are. -/
theorem renderedSize_pos (containerWidth containerHeight naturalWidth naturalHeight : ℚ)
    (hcw : 0 < containerWidth) (hch : 0 < containerHeight)
    (hnw : 0 < naturalWidth) (hnh : 0 < naturalHeight) :
    0 < (renderedSize containerWidth containerHeight naturalWidth naturalHeight).1 ∧
    0 < (renderedSize containerWidth containerHeight naturalWidth naturalHeight).2 := by
  have hia : 0 < naturalWidth / naturalHeight := div_pos hnw hnh
  by_cases hr : naturalWidth / naturalHeight > containerWidth / containerHeight <;>
    simp [renderedSize, hr]
  · exact ⟨hcw, div_pos hcw hia⟩
  · exact ⟨mul_pos hch hia, hch⟩

/-- C10: every position the ImageUploader placement handler emits lies
in [0, 100] on both axes, and a click whose point falls outside the
object-contain rendered rectangle is discarded (no `onSurfaceClick`
call, modelled as `none`): the orchestrator's in-range precondition on
`dropPosition` is established at the UI boundary. -/
theorem handlePlacement_establishes_range
    (clientX clientY containerLeft containerTop
     containerWidth containerHeight naturalWidth naturalHeight : ℚ)
    (hcw : 0 < containerWidth) (hch : 0 < containerHeight)
    (hnw : 0 < naturalWidth) (hnh : 0 < naturalHeight) :
    (∀ ev : PlacementEvent,
      handlePlacement clientX clientY containerLeft containerTop
          containerWidth containerHeight naturalWidth naturalHeight = some ev →
        0 ≤ ev.relativePosition.xPercent ∧ ev.relativePosition.xPercent ≤ 100 ∧
        0 ≤ ev.relativePosition.yPercent ∧ ev.relativePosition.yPercent ≤ 100) ∧
    (clientX - containerLeft
        - (containerWidth
            - (renderedSize containerWidth containerHeight naturalWidth naturalHeight).1) / 2 < 0 ∨
     clientX - containerLeft
        - (containerWidth
            - (renderedSize containerWidth containerHeight naturalWidth naturalHeight).1) / 2
        > (renderedSize containerWidth containerHeight naturalWidth naturalHeight).1 ∨
     clientY - containerTop
        - (containerHeight
            - (renderedSize containerWidth containerHeight naturalWidth naturalHeight).2) / 2 < 0 ∨
     clientY - containerTop
        - (containerHeight
            - (renderedSize containerWidth containerHeight naturalWidth naturalHeight).2) / 2
        > (renderedSize containerWidth containerHeight naturalWidth naturalHeight).2 →
      handlePlacement clientX clientY containerLeft containerTop
          containerWidth containerHeight naturalWidth naturalHeight = none) := by
  obtain ⟨hrw, hrh⟩ := renderedSize_pos containerWidth containerHeight
    naturalWidth naturalHeight hcw hch hnw hnh
  constructor
  · intro ev hev
    by_cases hout : clientX - containerLeft
        - (containerWidth
            - (renderedSize containerWidth containerHeight naturalWidth naturalHeight).1) / 2 < 0 ∨
      clientX - containerLeft
        - (containerWidth
            - (renderedSize containerWidth containerHeight naturalWidth naturalHeight).1) / 2
        > (renderedSize containerWidth containerHeight naturalWidth naturalHeight).1 ∨
      clientY - containerTop
        - (containerHeight
            - (renderedSize containerWidth containerHeight naturalWidth naturalHeight).2) / 2 < 0 ∨
      clientY - containerTop
        - (containerHeight
            - (renderedSize containerWidth containerHeight naturalWidth naturalHeight).2) / 2
        > (renderedSize containerWidth containerHeight naturalWidth naturalHeight).2
    · rw [handlePlacement] at hev
      simp only [if_pos hout] at hev
      exact Option.noConfusion hev
    · rw [handlePlacement] at hev
      simp only [if_neg hout] at hev
      push_neg at hout
      obtain ⟨hx0, hxw, hy0, hyh⟩ := hout
      have hev2 := Option.some.inj hev
      subst hev2
      dsimp only
      have hx1 : (clientX - containerLeft
          - (containerWidth
              - (renderedSize containerWidth containerHeight naturalWidth naturalHeight).1) / 2)
          / (renderedSize containerWidth containerHeight naturalWidth naturalHeight).1 ≤ 1 :=
        (div_le_one hrw).mpr hxw
      have hx2 : 0 ≤ (clientX - containerLeft
          - (containerWidth
              - (renderedSize containerWidth containerHeight naturalWidth naturalHeight).1) / 2)
          / (renderedSize containerWidth containerHeight naturalWidth naturalHeight).1 :=
        div_nonneg hx0 (le_of_lt hrw)
      have hy1 : (clientY - containerTop
          - (containerHeight
              - (renderedSize containerWidth containerHeight naturalWidth naturalHeight).2) / 2)
          / (renderedSize containerWidth containerHeight naturalWidth naturalHeight).2 ≤ 1 :=
        (div_le_one hrh).mpr hyh
      have hy2 : 0 ≤ (clientY - containerTop
          - (containerHeight
              - (renderedSize containerWidth containerHeight naturalWidth naturalHeight).2) / 2)
          / (renderedSize containerWidth containerHeight naturalWidth naturalHeight).2 :=
        div_nonneg hy0 (le_of_lt hrh)
      refine ⟨by nlinarith, by nlinarith, by nlinarith, by nlinarith⟩
  · intro hout
    rw [handlePlacement]
    simp only [if_pos hout]

/-- C10 witness: a click at (100, 50) in a 200 × 100 container showing a
100 × 100 image maps to {50, 50}, in range on both axes. -/
theorem handlePlacement_establishes_range_witness :
    0 ≤ (50 : ℚ) ∧ (50 : ℚ) ≤ 100 ∧ 0 ≤ (50 : ℚ) ∧ (50 : ℚ) ≤ 100 :=
  (handlePlacement_establishes_range 100 50 0 0 200 100 100 100
      (by norm_num) (by norm_num) (by norm_num) (by norm_num)).1
    ⟨⟨100, 50⟩, ⟨50, 50⟩⟩ (by norm_num [handlePlacement, renderedSize])

end HomeCanvas
